import Mathlib

/-!
Verification of the Virtual Herbal Garden "Generation Gateway".

The repository contains two full request handlers with decision logic:
  * `netlify/functions/chatbot.js` (`exports.handler`), a serverless variant, and
  * `Backend/index.js` (`app.post("/api/generate")`), an Express variant
    (full text in `src/unnamed/part_002`; `src/Backend/index.js` is a truncated
    copy of the same file).
Both are shallowly embedded below as pure functions over a JSON value model:
the external provider call, JSON.parse of the raw request body, and the
process environment are passed in as explicit parameters, and each handler
returns its HTTP response together with the number of provider calls it made.
JavaScript truthiness, optional chaining, and the try/catch boundary are
modelled explicitly; thrown TypeErrors inside the try block are routed to the
same catch-handler value the source would produce.
-/

set_option maxRecDepth 8192

namespace HerbalGarden

/-- JSON-like values, the shape of request bodies and provider responses.
Numbers are modelled as integers: no constant the handlers branch on is a
non-integral float. -/
inductive JsValue where
  | null
  | bool (b : Bool)
  | num (n : Int)
  | str (s : String)
  | arr (elems : List JsValue)
  | obj (fields : List (String × JsValue))

/-- Property lookup on a JS object field list (first binding wins; the
concrete objects in this development have distinct keys). -/
def lookupField (key : String) : List (String × JsValue) → Option JsValue
  | [] => none
  | (k, v) :: rest => if k = key then some v else lookupField key rest

/-- `v.key` property access; `none` models JS `undefined` (as it does for
property access on primitives, which JS boxes). -/
def JsValue.get : JsValue → String → Option JsValue
  | .obj fields, key => lookupField key fields
  | _, _ => none

/-- JavaScript truthiness of a value. -/
def jsTruthy : JsValue → Bool
  | .null => false
  | .bool b => b
  | .num n => n != 0
  | .str s => s != ""
  | .arr _ => true
  | .obj _ => true

/-- Truthiness of a possibly-undefined value (`undefined` is falsy). -/
def optTruthy : Option JsValue → Bool
  | some v => jsTruthy v
  | none => false

/-- Models the guard `v && typeof v === "string"`: a truthy string. -/
def truthyString : Option JsValue → Bool
  | some (.str s) => s != ""
  | _ => false

/-- Optional-chained property access `a?.key`. -/
def optField (v : Option JsValue) (key : String) : Option JsValue :=
  match v with
  | none => none
  | some .null => none
  | some w => w.get key

/-- Index access `v[0]` on a non-nullish value.  Arrays index their elements,
strings index their characters, objects look up the key `"0"`; primitives
yield `undefined`.  (The handlers only ever index position 0.) -/
def jsIndex0 : JsValue → Option JsValue
  | .arr xs => xs.head?
  | .str s => (s.data.head?).map fun c => .str (String.mk [c])
  | .obj fs => lookupField "0" fs
  | _ => none

/-- Optional-chained index access `a?.[0]`. -/
def optIndex0 : Option JsValue → Option JsValue
  | none => none
  | some .null => none
  | some w => jsIndex0 w

/-- Strict equality of a JS value with a string literal (`v === "s"`).
Any non-string value is strictly unequal to a string. -/
def JsValue.isStr : JsValue → String → Bool
  | .str t, s => t = s
  | _, _ => false

/-- Models `v.length > 0` for JSON-derived values: arrays and strings report
their length, objects their numeric `length` field if any; otherwise the
comparison against `undefined` is false.  (Coercion of non-numeric `length`
fields is not modelled; no claim reaches such a value.) -/
def jsLengthPos : JsValue → Bool
  | .arr xs => !xs.isEmpty
  | .str s => !s.data.isEmpty
  | .obj fs =>
    match lookupField "length" fs with
    | some (.num n) => n > 0
    | _ => false
  | _ => false

/-- Models `v.length === 0` (strict equality: `undefined === 0` is false). -/
def jsLengthEqZero : JsValue → Bool
  | .arr xs => xs.isEmpty
  | .str s => s.data.isEmpty
  | .obj fs =>
    match lookupField "length" fs with
    | some (.num n) => n = 0
    | _ => false
  | _ => false

/-- `needle` is a leading segment of `haystack` (character lists). -/
def leadMatch : List Char → List Char → Bool
  | [], _ => true
  | _ :: _, [] => false
  | p :: ps, c :: cs => p = c && leadMatch ps cs

/-- `needle` occurs contiguously inside `haystack` (character lists). -/
def hasSub (needle : List Char) : List Char → Bool
  | [] => needle.isEmpty
  | c :: cs => leadMatch needle (c :: cs) || hasSub needle cs

/-- Models `s.includes(pat)`: substring occurrence test. -/
def jsIncludes (s pat : String) : Bool := hasSub pat.data s.data

/-- ASCII lower-casing of one character (the replies and keywords the
handlers compare are ASCII, so this matches `toLowerCase`). -/
def asciiToLower (c : Char) : Char :=
  if 'A' ≤ c && c ≤ 'Z' then Char.ofNat (c.toNat + 32) else c

/-- Models `s.toLowerCase()` on ASCII text. -/
def jsToLower (s : String) : String := String.mk (s.data.map asciiToLower)

/-- ASCII whitespace, the characters relevant to `trim` here. -/
def jsSpace (c : Char) : Bool :=
  c = ' ' || c = '\t' || c = '\n' || c = '\r'

/-- Models `s.trim()` on ASCII text. -/
def jsTrim (s : String) : String :=
  String.mk (((s.data.dropWhile jsSpace).reverse.dropWhile jsSpace).reverse)

/-! Fixed strings of both handlers (verbatim from the source; `\x27` is the
apostrophe character). -/

/-- Reply sent with the 400 "invalid domain" responses of both handlers. -/
def DOMAIN_REPLY : String :=
  "I can only answer questions related to herbs, plants, and gardening."

/-- Reply sent with the 400 "no message" responses of both handlers. -/
def NO_MESSAGE_REPLY : String := "Please ask me a question about herbs or plants!"

/-- The fixed refusal message the off-topic post-filter substitutes. -/
def REFUSAL_MESSAGE : String :=
  "I can only answer questions related to herbs, plants, and gardening. Please ask me about medicinal plants, growing tips, or natural remedies!"

/-- The Express handler fallback when the reply is empty or blank. -/
def REPHRASE_MESSAGE : String :=
  "I\x27m not sure how to answer that. Could you rephrase your question about herbs or plants?"

/-- The Express handler reply on an invalid provider response (502). -/
def PROBLEM_PROCESSING_REPLY : String :=
  "I encountered a problem processing your request. Please try again!"

/-- The Netlify handler reply on an invalid provider response (502). -/
def HAVING_TROUBLE_REPLY : String :=
  "I\x27m having trouble right now. Please try asking your question again!"

/-- Generic failure reply of both catch blocks. -/
def TECH_DIFFICULTIES_REPLY : String :=
  "Sorry, I\x27m experiencing technical difficulties. Please try again in a moment."

/-- Express handler reply on a provider rate limit (429). -/
def RATE_REPLY : String :=
  "I\x27m receiving too many requests. Please wait a moment and try again."

/-- Express handler reply on a provider auth rejection (401/403). -/
def AUTH_REPLY : String := "Service configuration issue. Please contact support."

/-- Express handler reply on a provider timeout (504). -/
def TIMEOUT_REPLY : String := "The request took too long. Please try a simpler question."

/-- Express handler reply when the API key is missing (500). -/
def UNAVAILABLE_REPLY : String := "Service temporarily unavailable. Please try again later."

/-- Express handler reply on an absent request body (400). -/
def EMPTY_BODY_REPLY : String := "Please provide a valid question about herbs or plants."

/-- `const domain = body.domain || ""` (both handlers): the `domain` field if
truthy, else the empty string. -/
def domainOf (body : JsValue) : JsValue :=
  match body.get "domain" with
  | some v => if jsTruthy v then v else .str ""
  | none => .str ""

/-- The Request Normalizer shared by both handlers (chatbot.js lines 96-105,
Backend/index.js lines 79-89, identical semantics): a truthy string `prompt`,
else a truthy string `message`, else the truthy chain
`contents[0]?.parts?.[0]?.text` when `contents` is an array, else the empty
string the variable was initialised with. -/
def extractUserMessage (body : JsValue) : JsValue :=
  if truthyString (body.get "prompt") then (body.get "prompt").getD .null
  else if truthyString (body.get "message") then (body.get "message").getD .null
  else
    match body.get "contents" with
    | some (.arr xs) =>
      let chain := optField (optIndex0 (optField xs.head? "parts")) "text"
      if optTruthy chain then chain.getD .null else .str ""
    | _ => .str ""

/-- The conversation contents both handlers build around the user message:
`[{ role: "user", parts: [{ text: userMessage }] }]`.  The fixed system
instruction and generation constants the source attaches alongside it do not
influence any branch of the handlers and are opaque to the provider
parameter, so the provider is modelled as a function of this array. -/
def userContents (userMessage : String) : JsValue :=
  .arr [.obj [("role", .str "user"), ("parts", .arr [.obj [("text", .str userMessage)]])]]

/-- The observable shape of a JS exception as the Express catch block reads
it: `err.response?.status`, `err.code`, and `err.message`. -/
structure JsError where
  responseStatus : Option Int
  code : Option String
  message : Option String

/-- Outcome of one provider call: a response value, or a thrown error. -/
inductive ProviderResult where
  | ok (data : JsValue)
  | error (e : JsError)

/-- An HTTP response: status code and JSON body. -/
structure HttpResponse where
  status : Nat
  body : JsValue

/-- A Netlify invocation event: HTTP method and raw (unparsed) body. -/
structure NetlifyEvent where
  httpMethod : String
  body : Option String

/-- A JSON body `{ error, reply }`. -/
def mkErr2 (e r : String) : JsValue :=
  .obj [("error", .str e), ("reply", .str r)]

/-- The NormalizedReply the Express handler returns on success
(Backend/index.js lines 194-201). -/
def mkNormalizedReply (t : String) : JsValue :=
  .obj [("reply", .str t),
        ("candidates", .arr [.obj [("content", .obj [("parts", .arr [.obj [("text", .str t)]])])]])]

/-- The body the Netlify handler returns on success (chatbot.js lines
190-197): `{ reply, content: candidate.content }`. -/
def netlify200Body (t : String) (content : JsValue) : JsValue :=
  .obj [("reply", .str t), ("content", content)]

/-- A well-formed provider response carrying one text part. -/
def mkProviderResponse (t : String) : JsValue :=
  .obj [("candidates",
         .arr [.obj [("content", .obj [("parts", .arr [.obj [("text", .str t)]])])]])]

/-- Off-topic keywords of the Express handler (Backend/index.js lines 169-174). -/
def expressKeywords : List String :=
  ["politics", "election", "president", "government", "war", "military",
   "movie", "film", "actor", "sport", "football", "cricket", "match",
   "programming", "code", "software", "algorithm", "javascript",
   "cryptocurrency", "bitcoin", "stock", "investment"]

/-- Off-topic keywords of the Netlify handler (chatbot.js line 179). -/
def netlifyKeywords : List String :=
  ["politics", "election", "president", "war", "movie", "sport",
   "technology", "programming", "code"]

/-- The Express off-topic test (Backend/index.js lines 176-182): some keyword
occurs in the lower-cased reply and none of "plant", "herb", "garden" does. -/
def expressSeemsOffTopic (replyText : String) : Bool :=
  let lowerReply := jsToLower replyText
  expressKeywords.any fun keyword =>
    jsIncludes lowerReply keyword &&
    !(jsIncludes lowerReply "plant") &&
    !(jsIncludes lowerReply "herb") &&
    !(jsIncludes lowerReply "garden")

/-- The Netlify off-topic test (chatbot.js lines 180-183): some keyword
occurs in the lower-cased reply and neither "plant" nor "herb" does —
"garden" is NOT consulted here, unlike the Express variant. -/
def netlifySeemsOffTopic (replyText : String) : Bool :=
  let lowerReply := jsToLower replyText
  netlifyKeywords.any fun keyword =>
    jsIncludes lowerReply keyword &&
    !(jsIncludes lowerReply "plant") &&
    !(jsIncludes lowerReply "herb")

/-- The classification rule exactly as the claim words it (for comparison
with the code's filters): some keyword from `keywords` occurs in the reply as
a case-insensitive substring and no member of `allow` occurs in it. -/
def claimOffTopic (keywords allow : List String) (reply : String) : Bool :=
  (keywords.any fun k => jsIncludes (jsToLower reply) k) &&
  !(allow.any fun a => jsIncludes (jsToLower reply) a)

/-- Reply-text extraction from `candidates[0]` (Backend/index.js lines
161-166, chatbot.js lines 170-176, identical):
`if (candidate.content && candidate.content.parts && parts.length > 0)
 replyText = candidate.content.parts[0].text || ""`.
`.error` marks the paths where the source throws a TypeError inside the try
block: property access on `undefined`/`null`, or a truthy non-string text
(whose `toLowerCase()` call on the very next source line throws). -/
def extractReplyText : Option JsValue → Except Unit String
  | none => .error ()
  | some .null => .error ()
  | some candidate =>
    let content := candidate.get "content"
    if !(optTruthy content) then .ok ""
    else
      match optField content "parts" with
      | none => .ok ""
      | some partsV =>
        if !(jsTruthy partsV) then .ok ""
        else if !(jsLengthPos partsV) then .ok ""
        else
          match jsIndex0 partsV with
          | none => .error ()
          | some .null => .error ()
          | some p =>
            match p.get "text" with
            | some (.str s) => .ok s
            | some v => if jsTruthy v then .error () else .ok ""
            | none => .ok ""

/-- Express post-processing of the extracted reply (Backend/index.js lines
184-191): off-topic override, then the blank-reply fallback. -/
def expressPostProcess (t0 : String) : String :=
  let t1 := if expressSeemsOffTopic t0 then REFUSAL_MESSAGE else t0
  if t1 = "" ∨ jsTrim t1 = "" then REPHRASE_MESSAGE else t1

/-- A TypeError raised inside the try block, as the catch block observes it:
no `response`, no `code`, and a runtime message that never contains
"timeout" (modelled by the `|| "Unknown error"` fallback value). -/
def typeErrorJs : JsError := ⟨none, none, none⟩

/-- Models `err.message?.includes("timeout")`. -/
def msgHasTimeout : Option String → Bool
  | none => false
  | some m => jsIncludes m "timeout"

/-- The Express catch block (Backend/index.js lines 203-233): the error
classifier mapping provider failures to client responses. -/
def expressCatch (e : JsError) : HttpResponse :=
  if e.responseStatus = some 429 then
    ⟨429, mkErr2 "Rate limit exceeded" RATE_REPLY⟩
  else if e.responseStatus = some 401 ∨ e.responseStatus = some 403 then
    ⟨500, mkErr2 "Authentication error" AUTH_REPLY⟩
  else if e.code = some "ECONNABORTED" ∨ msgHasTimeout e.message then
    ⟨504, mkErr2 "Request timeout" TIMEOUT_REPLY⟩
  else
    ⟨500, mkErr2 "Internal server error" TECH_DIFFICULTIES_REPLY⟩

/-- Express handling of a provider response value (Backend/index.js lines
149-201): validation, extraction, post-filter, NormalizedReply. -/
def expressRespond (data : JsValue) : HttpResponse :=
  if !(jsTruthy data) || !(optTruthy (data.get "candidates")) ||
      jsLengthEqZero ((data.get "candidates").getD .null) then
    ⟨502, mkErr2 "Invalid AI response" PROBLEM_PROCESSING_REPLY⟩
  else
    match extractReplyText (optIndex0 (data.get "candidates")) with
    | .error _ => expressCatch typeErrorJs
    | .ok t0 => ⟨200, mkNormalizedReply (expressPostProcess t0)⟩

/-- The Express `POST /api/generate` handler (Backend/index.js lines 67-234;
full text in part_002).  `apiKey` is `process.env.GENERATIVE_API_KEY`
(`none` = unset), `provider` models the axios call to the Gemini endpoint,
`reqBody` is the parsed request body (`none` = falsy `req.body`).  Returns
the response and the number of provider calls performed. -/
def expressGenerate (apiKey : Option String) (provider : JsValue → ProviderResult)
    (reqBody : Option JsValue) : HttpResponse × Nat :=
  match reqBody with
  | none => (⟨400, mkErr2 "Empty request body" EMPTY_BODY_REPLY⟩, 0)
  | some body =>
    let domain := domainOf body
    let userMessage := extractUserMessage body
    if !(domain.isStr "herbal-garden") then
      (⟨400, mkErr2 "Invalid domain" DOMAIN_REPLY⟩, 0)
    else
      match userMessage with
      | .str s =>
        if s = "" ∨ jsTrim s = "" then
          (⟨400, mkErr2 "No message provided" NO_MESSAGE_REPLY⟩, 0)
        else
          match apiKey with
          | none => (⟨500, mkErr2 "Server misconfiguration" UNAVAILABLE_REPLY⟩, 0)
          | some k =>
            if k = "" then
              (⟨500, mkErr2 "Server misconfiguration" UNAVAILABLE_REPLY⟩, 0)
            else
              match provider (userContents s) with
              | .error e => (expressCatch e, 1)
              | .ok data => (expressRespond data, 1)
      | v =>
        if !(jsTruthy v) then
          (⟨400, mkErr2 "No message provided" NO_MESSAGE_REPLY⟩, 0)
        else
          (expressCatch typeErrorJs, 0)

/-- Models `err?.message || "Unknown error"`. -/
def jsOrUnknown : Option String → String
  | some m => if m = "" then "Unknown error" else m
  | none => "Unknown error"

/-- The Netlify catch block (chatbot.js lines 199-210): a single generic 500,
with no status classification. -/
def netlifyCatch (e : JsError) : HttpResponse :=
  ⟨500, .obj [("error", .str "Failed to get response from AI"),
              ("message", .str (jsOrUnknown e.message)),
              ("reply", .str TECH_DIFFICULTIES_REPLY)]⟩

/-- Netlify handling of a provider response value (chatbot.js lines 152-197):
validation (including the `candidates[0].content` check absent from the
Express variant), extraction, off-topic filter — and no blank-reply check.
A `null` first candidate makes the validation line itself throw
(`candidates[0].content`), which the catch block turns into a 500. -/
def netlifyRespond (response : JsValue) : HttpResponse :=
  if !(jsTruthy response) then
    ⟨502, mkErr2 "AI provider returned invalid response" HAVING_TROUBLE_REPLY⟩
  else
    match response.get "candidates" with
    | some (.arr (.null :: _)) => netlifyCatch typeErrorJs
    | some (.arr (c0 :: _)) =>
      if !(optTruthy (c0.get "content")) then
        ⟨502, mkErr2 "AI provider returned invalid response" HAVING_TROUBLE_REPLY⟩
      else
        match extractReplyText (some c0) with
        | .error _ => netlifyCatch typeErrorJs
        | .ok t0 =>
          ⟨200, netlify200Body (if netlifySeemsOffTopic t0 then REFUSAL_MESSAGE else t0)
                  ((c0.get "content").getD .null)⟩
    | _ => ⟨502, mkErr2 "AI provider returned invalid response" HAVING_TROUBLE_REPLY⟩

/-- The Netlify `exports.handler` (chatbot.js lines 42-211).  `sdkPresent`
models the `safeRequire` of the SDK, `apiKey` the resolved `||`-chain of the
four key environment variables, `parse` models `JSON.parse` (`none` = parse
throws, caught at lines 88-93 and replaced by `{}`; `some .null` = the raw
body was the JSON text `null`), `provider` models `model.generateContent`
(called with the contents array).  A body that parsed to JSON `null` makes
the very first property access `body.domain` (line 97) throw a TypeError,
which the catch block turns into the generic 500.  Returns the response and
the number of provider calls performed. -/
def chatbotHandler (sdkPresent : Bool) (apiKey : Option String)
    (parse : String → Option JsValue) (provider : JsValue → ProviderResult)
    (event : NetlifyEvent) : HttpResponse × Nat :=
  if event.httpMethod = "OPTIONS" then (⟨204, .str ""⟩, 0)
  else if !sdkPresent then
    (⟨500, .obj [("error", .str "Server misconfiguration: missing SDK.")]⟩, 0)
  else
    match apiKey with
    | none => (⟨500, .obj [("error", .str "Server misconfiguration: missing API key.")]⟩, 0)
    | some key =>
      if key = "" then
        (⟨500, .obj [("error", .str "Server misconfiguration: missing API key.")]⟩, 0)
      else
        let body0 : JsValue :=
          match event.body with
          | none => .obj []
          | some s => if s = "" then .obj [] else (parse s).getD (.obj [])
        match body0 with
        | .null => (netlifyCatch typeErrorJs, 0)
        | body =>
        let domain := domainOf body
        let userMessage := extractUserMessage body
        if !(domain.isStr "herbal-garden") then
          (⟨400, mkErr2 "Invalid request: domain parameter required" DOMAIN_REPLY⟩, 0)
        else
          match userMessage with
          | .str s =>
            if s = "" ∨ jsTrim s = "" then
              (⟨400, mkErr2 "No message provided" NO_MESSAGE_REPLY⟩, 0)
            else
              match provider (userContents s) with
              | .error e => (netlifyCatch e, 1)
              | .ok response => (netlifyRespond response, 1)
          | v =>
            if !(jsTruthy v) then
              (⟨400, mkErr2 "No message provided" NO_MESSAGE_REPLY⟩, 0)
            else
              (netlifyCatch typeErrorJs, 0)

/-- A provider stub returning the same outcome on every call. -/
def constProvider (r : ProviderResult) : JsValue → ProviderResult := fun _ => r

/-- A JSON.parse stub returning the same outcome on every input. -/
def constParse (v : Option JsValue) : String → Option JsValue := fun _ => v

/-- A request body that passes both handlers' gates. -/
def validReqBody : JsValue :=
  .obj [("domain", .str "herbal-garden"), ("prompt", .str "How do I grow tulsi?")]

/-- The body carries a string `error` field and a string `reply` field. -/
def errAndReply (b : JsValue) : Prop :=
  (∃ e, b.get "error" = some (.str e)) ∧ (∃ r, b.get "reply" = some (.str r))

/-- The navigation `candidates[0].content.parts[0].text` on a response body,
used to state the NormalizedReply round-trip property. -/
def normalizedText (b : JsValue) : Option JsValue :=
  optField (optIndex0 (optField (optField (optIndex0 (b.get "candidates")) "content") "parts")) "text"

/-! # Helper lemmas -/

/-- Distribute a constant conjunct out of `List.any`. -/
theorem list_any_and_right (xs : List String) (f : String → Bool) (c : Bool) :
    (xs.any fun k => f k && c) = (xs.any f && c) := by
  induction xs with
  | nil => simp
  | cons x xs ih => cases c <;> simp_all [List.any_cons]

theorem mkErr2_errAndReply (e r : String) : errAndReply (mkErr2 e r) :=
  ⟨⟨e, rfl⟩, ⟨r, rfl⟩⟩

theorem netlifyCatch_errAndReply (e : JsError) : errAndReply (netlifyCatch e).body :=
  ⟨⟨"Failed to get response from AI", rfl⟩, ⟨TECH_DIFFICULTIES_REPLY, rfl⟩⟩

theorem netlifyCatch_status (e : JsError) : (netlifyCatch e).status = 500 := rfl

/-- The Express catch block produces one of four fixed responses. -/
theorem expressCatch_cases (e : JsError) :
    expressCatch e = ⟨429, mkErr2 "Rate limit exceeded" RATE_REPLY⟩ ∨
    expressCatch e = ⟨500, mkErr2 "Authentication error" AUTH_REPLY⟩ ∨
    expressCatch e = ⟨504, mkErr2 "Request timeout" TIMEOUT_REPLY⟩ ∨
    expressCatch e = ⟨500, mkErr2 "Internal server error" TECH_DIFFICULTIES_REPLY⟩ := by
  unfold expressCatch
  split
  · exact Or.inl rfl
  · split
    · exact Or.inr (Or.inl rfl)
    · split
      · exact Or.inr (Or.inr (Or.inl rfl))
      · exact Or.inr (Or.inr (Or.inr rfl))

theorem expressCatch_status_ne_200 (e : JsError) : (expressCatch e).status ≠ 200 := by
  rcases expressCatch_cases e with h | h | h | h <;> rw [h] <;> decide

theorem expressCatch_errAndReply (e : JsError) : errAndReply (expressCatch e).body := by
  rcases expressCatch_cases e with h | h | h | h <;> rw [h] <;> exact mkErr2_errAndReply _ _

/-- The post-processed Express reply is never blank. -/
theorem expressPostProcess_trim_ne (t : String) : jsTrim (expressPostProcess t) ≠ "" := by
  unfold expressPostProcess
  dsimp only
  by_cases h : (if expressSeemsOffTopic t then REFUSAL_MESSAGE else t) = "" ∨
      jsTrim (if expressSeemsOffTopic t then REFUSAL_MESSAGE else t) = ""
  · rw [if_pos h]; decide
  · rw [if_neg h]
    push_neg at h
    exact h.2

/-- Case analysis of Express provider-response handling. -/
theorem expressRespond_cases (data : JsValue) :
    expressRespond data = ⟨502, mkErr2 "Invalid AI response" PROBLEM_PROCESSING_REPLY⟩ ∨
    expressRespond data = expressCatch typeErrorJs ∨
    ∃ t0, expressRespond data = ⟨200, mkNormalizedReply (expressPostProcess t0)⟩ := by
  unfold expressRespond
  split
  · exact Or.inl rfl
  · split
    · exact Or.inr (Or.inl rfl)
    · exact Or.inr (Or.inr ⟨_, rfl⟩)

/-- Case analysis of the whole Express handler, with the provider-call count
bounded in every branch. -/
theorem expressGenerate_cases (key : Option String) (prov : JsValue → ProviderResult)
    (b : Option JsValue) :
    (∃ er rp n, n ≤ 1 ∧ expressGenerate key prov b = (⟨400, mkErr2 er rp⟩, n)) ∨
    (∃ n, n ≤ 1 ∧
      expressGenerate key prov b = (⟨500, mkErr2 "Server misconfiguration" UNAVAILABLE_REPLY⟩, n)) ∨
    (∃ e n, n ≤ 1 ∧ expressGenerate key prov b = (expressCatch e, n)) ∨
    (∃ data, expressGenerate key prov b = (expressRespond data, 1)) := by
  unfold expressGenerate
  dsimp only
  repeat' split
  all_goals first
    | exact Or.inl ⟨_, _, 0, by decide, rfl⟩
    | exact Or.inr (Or.inl ⟨0, by decide, rfl⟩)
    | exact Or.inr (Or.inr (Or.inl ⟨_, 1, by decide, rfl⟩))
    | exact Or.inr (Or.inr (Or.inl ⟨_, 0, by decide, rfl⟩))
    | exact Or.inr (Or.inr (Or.inr ⟨_, rfl⟩))

/-- Case analysis of Netlify provider-response handling. -/
theorem netlifyRespond_cases (resp : JsValue) :
    netlifyRespond resp = ⟨502, mkErr2 "AI provider returned invalid response" HAVING_TROUBLE_REPLY⟩ ∨
    netlifyRespond resp = netlifyCatch typeErrorJs ∨
    ∃ t c, netlifyRespond resp = ⟨200, netlify200Body t c⟩ := by
  unfold netlifyRespond
  repeat' split
  all_goals first
    | exact Or.inl rfl
    | exact Or.inr (Or.inl rfl)
    | exact Or.inr (Or.inr ⟨_, _, rfl⟩)

/-- Case analysis of the whole Netlify handler: the configuration-error
branches are flagged, and the call count is bounded in every branch. -/
theorem chatbotHandler_cases (sdk : Bool) (key : Option String)
    (parse : String → Option JsValue) (prov : JsValue → ProviderResult) (ev : NetlifyEvent) :
    chatbotHandler sdk key parse prov ev = (⟨204, .str ""⟩, 0) ∨
    (∃ s, chatbotHandler sdk key parse prov ev = (⟨500, .obj [("error", .str s)]⟩, 0) ∧
      (sdk = false ∨ key = none ∨ key = some "")) ∨
    (∃ er rp, chatbotHandler sdk key parse prov ev = (⟨400, mkErr2 er rp⟩, 0)) ∨
    (∃ e n, n ≤ 1 ∧ chatbotHandler sdk key parse prov ev = (netlifyCatch e, n)) ∨
    (∃ resp, chatbotHandler sdk key parse prov ev = (netlifyRespond resp, 1)) := by
  unfold chatbotHandler
  dsimp only
  repeat' split
  all_goals first
    | exact Or.inl rfl
    | exact Or.inr (Or.inl
        ⟨"Server misconfiguration: missing API key.", rfl, Or.inr (Or.inl rfl)⟩)
    | exact Or.inr (Or.inl
        ⟨"Server misconfiguration: missing API key.", rfl, Or.inr (Or.inr (by simp_all))⟩)
    | exact Or.inr (Or.inl
        ⟨"Server misconfiguration: missing SDK.", rfl, Or.inl (by simp_all)⟩)
    | exact Or.inr (Or.inr (Or.inl ⟨_, _, rfl⟩))
    | exact Or.inr (Or.inr (Or.inr (Or.inl ⟨_, 1, by decide, rfl⟩)))
    | exact Or.inr (Or.inr (Or.inr (Or.inl ⟨_, 0, by decide, rfl⟩)))
    | exact Or.inr (Or.inr (Or.inr (Or.inr ⟨_, rfl⟩)))

/-! # Claims -/

/-- C1 counterexample: with a provider whose single (primary-convention) call
fails — an axios timeout error — the Express handler classifies the request
as failed (504) after exactly one provider call, not after a second attempt
under the alternate payload convention. -/
theorem C1_counterexample :
    (expressGenerate (some "key")
        (constProvider (.error ⟨none, some "ECONNABORTED", none⟩))
        (some validReqBody)).1.status = 504 ∧
    (expressGenerate (some "key")
        (constProvider (.error ⟨none, some "ECONNABORTED", none⟩))
        (some validReqBody)).2 = 1 ∧
    (1 : Nat) ≠ 2 :=
  ⟨rfl, rfl, by decide⟩

/-- C1 (amended): both handlers make at most one provider call per request:
a failing call is classified immediately by the catch block, with no fallback
attempt under the alternate payload convention (`contents` wrapped vs. bare). -/
theorem C1_single_attempt :
    (∀ (key : Option String) (prov : JsValue → ProviderResult) (b : Option JsValue),
       (expressGenerate key prov b).2 ≤ 1) ∧
    (∀ (sdk : Bool) (key : Option String) (parse : String → Option JsValue)
       (prov : JsValue → ProviderResult) (ev : NetlifyEvent),
       (chatbotHandler sdk key parse prov ev).2 ≤ 1) := by
  constructor
  · intro key prov b
    rcases expressGenerate_cases key prov b with
      ⟨er, rp, n, hn, h⟩ | ⟨n, hn, h⟩ | ⟨e, n, hn, h⟩ | ⟨d, h⟩
    · rw [h]; exact hn
    · rw [h]; exact hn
    · rw [h]; exact hn
    · rw [h]
  · intro sdk key parse prov ev
    rcases chatbotHandler_cases sdk key parse prov ev with
      h | ⟨s, h, _⟩ | ⟨er, rp, h⟩ | ⟨e, n, hn, h⟩ | ⟨r, h⟩
    · rw [h]; exact Nat.zero_le 1
    · rw [h]; exact Nat.zero_le 1
    · rw [h]; exact Nat.zero_le 1
    · rw [h]; exact hn
    · rw [h]

/-- C2 counterexample: a provider response whose first candidate lacks
`content` violates the claimed validation predicate, yet the Express handler
accepts it: it returns 200 with the rephrase fallback, not 502 with the
problem-processing reply. -/
theorem C2_counterexample :
    (expressGenerate (some "key")
        (constProvider (.ok (.obj [("candidates", .arr [.obj [("role", .str "model")]])])))
        (some validReqBody)).1.status = 200 ∧
    ((expressGenerate (some "key")
        (constProvider (.ok (.obj [("candidates", .arr [.obj [("role", .str "model")]])])))
        (some validReqBody)).1.body).get "reply" = some (.str REPHRASE_MESSAGE) ∧
    (200 : Nat) ≠ 502 :=
  ⟨rfl, rfl, by decide⟩

/-- C2 (amended): a provider response with `candidates` missing or an empty
array is rejected with 502 — by the Express handler with the fixed
problem-processing reply, by the Netlify handler with its having-trouble
reply.  A first candidate without `content` is rejected (502) only by the
Netlify handler; the Express handler does not check `content` and answers
200 with the rephrase fallback (see the counterexample).  Neither path
raises an exception: both handlers are total. -/
theorem C2_amended_validation :
    (∀ data : JsValue,
       (data.get "candidates" = none ∨ data.get "candidates" = some (.arr [])) →
       expressGenerate (some "key") (constProvider (.ok data)) (some validReqBody) =
         (⟨502, mkErr2 "Invalid AI response" PROBLEM_PROCESSING_REPLY⟩, 1)) ∧
    (∀ response : JsValue, jsTruthy response = true →
       (response.get "candidates" = none ∨ response.get "candidates" = some (.arr [])) →
       netlifyRespond response =
         ⟨502, mkErr2 "AI provider returned invalid response" HAVING_TROUBLE_REPLY⟩) ∧
    (∀ fields, lookupField "content" fields = none →
       netlifyRespond (.obj [("candidates", .arr [.obj fields])]) =
         ⟨502, mkErr2 "AI provider returned invalid response" HAVING_TROUBLE_REPLY⟩) := by
  refine ⟨fun data h => ?_, fun response ht h => ?_, fun fields h => ?_⟩
  · have step : expressGenerate (some "key") (constProvider (.ok data)) (some validReqBody) =
        (expressRespond data, 1) := rfl
    rw [step]
    unfold expressRespond
    rcases h with h | h <;> simp [h, optTruthy, jsTruthy, jsLengthEqZero]
  · unfold netlifyRespond
    rcases h with h | h <;> simp [ht, h]
  · have step : netlifyRespond (.obj [("candidates", .arr [.obj fields])]) =
        if (!(optTruthy (lookupField "content" fields))) = true then
          ⟨502, mkErr2 "AI provider returned invalid response" HAVING_TROUBLE_REPLY⟩
        else
          match extractReplyText (some (.obj fields)) with
          | .error _ => netlifyCatch typeErrorJs
          | .ok t0 =>
            ⟨200, netlify200Body (if netlifySeemsOffTopic t0 then REFUSAL_MESSAGE else t0)
                    ((lookupField "content" fields).getD .null)⟩ := rfl
    rw [step, h]
    rfl

/-- C2 witness: each rejected shape evaluated concretely. -/
theorem C2_witness :
    expressGenerate (some "key") (constProvider (.ok (.obj [("candidates", .arr [])])))
        (some validReqBody) =
      (⟨502, mkErr2 "Invalid AI response" PROBLEM_PROCESSING_REPLY⟩, 1) ∧
    netlifyRespond (.obj [("candidates", .arr [])]) =
      ⟨502, mkErr2 "AI provider returned invalid response" HAVING_TROUBLE_REPLY⟩ ∧
    netlifyRespond (.obj [("candidates", .arr [.obj [("role", .str "model")]])]) =
      ⟨502, mkErr2 "AI provider returned invalid response" HAVING_TROUBLE_REPLY⟩ :=
  ⟨C2_amended_validation.1 _ (Or.inr rfl),
   C2_amended_validation.2.1 _ rfl (Or.inr rfl),
   C2_amended_validation.2.2 _ rfl⟩

/-- C3 counterexample: the Netlify filter consults only "plant" and "herb",
not "garden": this reply contains the keyword "sport" together with the
allow-list substring "garden", so the claimed rule classifies it on-topic,
yet the Netlify filter classifies it off-topic and the handler replaces it
with the refusal message. -/
theorem C3_counterexample :
    netlifySeemsOffTopic "Gardening is my favorite sport" = true ∧
    claimOffTopic netlifyKeywords ["plant", "herb", "garden"]
      "Gardening is my favorite sport" = false ∧
    ((chatbotHandler true (some "key") (constParse (some validReqBody))
        (constProvider (.ok (mkProviderResponse "Gardening is my favorite sport")))
        ⟨"POST", some "x"⟩).1.body).get "reply" = some (.str REFUSAL_MESSAGE) :=
  ⟨by decide, by decide, rfl⟩

/-- C3 (amended): the Express filter classifies a reply off-topic exactly
when the claimed rule with allow-list {plant, herb, garden} does; the
Netlify filter matches the same rule with allow-list {plant, herb} only, so
"garden" does not rescue a reply there.  An off-topic classification makes
the Express handler replace the reply with the fixed refusal message. -/
theorem C3_amended_filter :
    (∀ r, expressSeemsOffTopic r =
       claimOffTopic expressKeywords ["plant", "herb", "garden"] r) ∧
    (∀ r, netlifySeemsOffTopic r = claimOffTopic netlifyKeywords ["plant", "herb"] r) ∧
    (∀ t, expressSeemsOffTopic t = true →
       expressRespond (mkProviderResponse t) = ⟨200, mkNormalizedReply REFUSAL_MESSAGE⟩) := by
  refine ⟨fun r => ?_, fun r => ?_, fun t h => ?_⟩
  · unfold expressSeemsOffTopic claimOffTopic
    dsimp only
    rw [list_any_and_right, list_any_and_right, list_any_and_right]
    simp [List.any_cons, List.any_nil, Bool.not_or, Bool.and_assoc]
  · unfold netlifySeemsOffTopic claimOffTopic
    dsimp only
    rw [list_any_and_right, list_any_and_right]
    simp [List.any_cons, List.any_nil, Bool.not_or, Bool.and_assoc]
  · have step : expressRespond (mkProviderResponse t) =
        ⟨200, mkNormalizedReply (expressPostProcess t)⟩ := rfl
    rw [step]
    unfold expressPostProcess
    dsimp only
    rw [h]
    simp only [if_true]
    rw [if_neg (by decide)]

/-- C3 witness: a concrete off-topic reply is replaced by the refusal. -/
theorem C3_witness :
    expressSeemsOffTopic "The election results are in" = true ∧
    expressRespond (mkProviderResponse "The election results are in") =
      ⟨200, mkNormalizedReply REFUSAL_MESSAGE⟩ :=
  ⟨by decide, C3_amended_filter.2.2 _ (by decide)⟩

/-- C4 counterexample: on a body whose domain is "other", the Netlify
handler does answer 400 without calling the provider, but its error string
is "Invalid request: domain parameter required", not "Invalid domain". -/
theorem C4_counterexample :
    (chatbotHandler true (some "key")
        (constParse (some (.obj [("domain", .str "other"), ("prompt", .str "hi")])))
        (constProvider (.ok .null)) ⟨"POST", some "x"⟩).1.status = 400 ∧
    ((chatbotHandler true (some "key")
        (constParse (some (.obj [("domain", .str "other"), ("prompt", .str "hi")])))
        (constProvider (.ok .null)) ⟨"POST", some "x"⟩).1.body).get "error" =
      some (.str "Invalid request: domain parameter required") ∧
    "Invalid request: domain parameter required" ≠ "Invalid domain" :=
  ⟨rfl, rfl, by decide⟩

/-- C4 (amended): any body whose `domain` is not exactly the string
"herbal-garden" (including absent) is rejected with 400 before any provider
call by both handlers; the Express handler answers `error: "Invalid
domain"`, the Netlify handler `error: "Invalid request: domain parameter
required"`.  One exception on the Netlify side: a raw body holding the JSON
text `null` parses to `null`, so the `body.domain` access itself throws and
the catch block answers the generic 500 — still without calling the
provider — rather than the 400 domain response. -/
theorem C4_amended_domain_gate :
    (∀ (key : Option String) (prov : JsValue → ProviderResult) (body : JsValue),
       (domainOf body).isStr "herbal-garden" = false →
       expressGenerate key prov (some body) =
         (⟨400, mkErr2 "Invalid domain" DOMAIN_REPLY⟩, 0)) ∧
    (∀ (k : String) (prov : JsValue → ProviderResult) (body : JsValue), k ≠ "" →
       body ≠ .null →
       (domainOf body).isStr "herbal-garden" = false →
       chatbotHandler true (some k) (constParse (some body)) prov ⟨"POST", some "x"⟩ =
         (⟨400, mkErr2 "Invalid request: domain parameter required" DOMAIN_REPLY⟩, 0)) ∧
    (∀ (k : String) (prov : JsValue → ProviderResult), k ≠ "" →
       chatbotHandler true (some k) (constParse (some .null)) prov ⟨"POST", some "null"⟩ =
         (netlifyCatch typeErrorJs, 0)) := by
  refine ⟨fun key prov body h => ?_, fun k prov body hk hnull h => ?_, fun k prov hk => ?_⟩
  · unfold expressGenerate
    dsimp only
    rw [h]
    rfl
  · cases body with
    | null => exact absurd rfl hnull
    | bool b =>
      unfold chatbotHandler
      dsimp only
      rw [if_neg hk, if_neg (by decide : ¬(("x" : String) = ""))]
      dsimp only [constParse, Option.getD]
      rw [h]
      rfl
    | num n =>
      unfold chatbotHandler
      dsimp only
      rw [if_neg hk, if_neg (by decide : ¬(("x" : String) = ""))]
      dsimp only [constParse, Option.getD]
      rw [h]
      rfl
    | str s =>
      unfold chatbotHandler
      dsimp only
      rw [if_neg hk, if_neg (by decide : ¬(("x" : String) = ""))]
      dsimp only [constParse, Option.getD]
      rw [h]
      rfl
    | arr xs =>
      unfold chatbotHandler
      dsimp only
      rw [if_neg hk, if_neg (by decide : ¬(("x" : String) = ""))]
      dsimp only [constParse, Option.getD]
      rw [h]
      rfl
    | obj fs =>
      unfold chatbotHandler
      dsimp only
      rw [if_neg hk, if_neg (by decide : ¬(("x" : String) = ""))]
      dsimp only [constParse, Option.getD]
      rw [h]
      rfl
  · unfold chatbotHandler
    dsimp only
    rw [if_neg hk, if_neg (by decide : ¬(("null" : String) = ""))]
    rfl

/-- C4 witness: a body with no domain field is rejected by both handlers,
and a JSON-null body hits the Netlify catch path. -/
theorem C4_witness :
    expressGenerate (some "key") (constProvider (.ok .null)) (some (.obj [])) =
      (⟨400, mkErr2 "Invalid domain" DOMAIN_REPLY⟩, 0) ∧
    chatbotHandler true (some "key") (constParse (some (.obj [])))
        (constProvider (.ok .null)) ⟨"POST", some "x"⟩ =
      (⟨400, mkErr2 "Invalid request: domain parameter required" DOMAIN_REPLY⟩, 0) ∧
    chatbotHandler true (some "key") (constParse (some .null))
        (constProvider (.ok .null)) ⟨"POST", some "null"⟩ =
      (netlifyCatch typeErrorJs, 0) :=
  ⟨C4_amended_domain_gate.1 _ _ _ rfl,
   C4_amended_domain_gate.2.1 "key" (constProvider (.ok .null)) (.obj []) (by decide)
     (fun hx => JsValue.noConfusion hx) rfl,
   C4_amended_domain_gate.2.2 "key" _ (by decide)⟩

/-- C5 counterexample: a body that contains the string prompt "" is not
extracted verbatim: the empty string fails the truthiness guard and the
normalizer falls through to `message`. -/
theorem C5_counterexample :
    extractUserMessage (.obj [("prompt", .str ""), ("message", .str "hi")]) = .str "hi" ∧
    "hi" ≠ "" :=
  ⟨rfl, by decide⟩

/-- C5 (amended): for every body whose `prompt` is a NON-EMPTY string the
normalizer extracts it verbatim, preferring it over `message` and
`contents`; when `prompt` is not a truthy string, a non-empty string
`message` is preferred over `contents`.  (An empty-string prompt, being
falsy, is skipped — see the counterexample.) -/
theorem C5_amended_precedence :
    (∀ (body : JsValue) (s : String), body.get "prompt" = some (.str s) → s ≠ "" →
       extractUserMessage body = .str s) ∧
    (∀ (body : JsValue) (s : String), truthyString (body.get "prompt") = false →
       body.get "message" = some (.str s) → s ≠ "" →
       extractUserMessage body = .str s) := by
  constructor
  · intro body s h hs
    unfold extractUserMessage
    rw [h]
    simp [truthyString, hs]
  · intro body s hp h hs
    unfold extractUserMessage
    rw [hp, h]
    simp [truthyString, hs]

/-- C5 witness: the precedence evaluated on concrete bodies. -/
theorem C5_witness :
    extractUserMessage
        (.obj [("prompt", .str "How do I grow tulsi?"), ("message", .str "zzz")]) =
      .str "How do I grow tulsi?" ∧
    extractUserMessage (.obj [("message", .str "hello")]) = .str "hello" :=
  ⟨C5_amended_precedence.1 _ _ rfl (by decide),
   C5_amended_precedence.2 _ _ rfl rfl (by decide)⟩

/-- C8: the Express error classifier maps provider failures exactly as
claimed — rate limit (429) to 429 with the wait-and-retry reply, auth
rejection (401/403) to 500, a timeout (aborted connection, no HTTP status)
to 504 with the try-a-simpler-question reply, and any other failure to the
generic 500 — and the handler feeds every provider error through this
classifier after exactly one call. -/
theorem C8_error_classifier (e : JsError) :
    (e.responseStatus = some 429 →
       expressCatch e = ⟨429, mkErr2 "Rate limit exceeded" RATE_REPLY⟩) ∧
    ((e.responseStatus = some 401 ∨ e.responseStatus = some 403) →
       expressCatch e = ⟨500, mkErr2 "Authentication error" AUTH_REPLY⟩) ∧
    (e.responseStatus = none → e.code = some "ECONNABORTED" →
       expressCatch e = ⟨504, mkErr2 "Request timeout" TIMEOUT_REPLY⟩) ∧
    (e.responseStatus ≠ some 429 → e.responseStatus ≠ some 401 →
       e.responseStatus ≠ some 403 → e.code ≠ some "ECONNABORTED" →
       msgHasTimeout e.message = false →
       expressCatch e = ⟨500, mkErr2 "Internal server error" TECH_DIFFICULTIES_REPLY⟩) ∧
    (expressGenerate (some "key") (constProvider (.error e)) (some validReqBody) =
       (expressCatch e, 1)) := by
  refine ⟨fun h => ?_, fun h => ?_, fun h0 hc => ?_, fun h1 h2 h3 h4 h5 => ?_, rfl⟩
  · unfold expressCatch
    rw [if_pos h]
  · unfold expressCatch
    have h1 : ¬ e.responseStatus = some 429 := by rcases h with h | h <;> simp [h]
    rw [if_neg h1, if_pos h]
  · unfold expressCatch
    rw [if_neg (by simp [h0]), if_neg (by simp [h0]), if_pos (Or.inl hc)]
  · unfold expressCatch
    rw [if_neg h1, if_neg (not_or.mpr ⟨h2, h3⟩),
        if_neg (not_or.mpr ⟨h4, by simp [h5]⟩)]

/-- C8 witness: the classifier evaluated on one concrete error of each class. -/
theorem C8_witness :
    expressCatch ⟨some 429, none, none⟩ = ⟨429, mkErr2 "Rate limit exceeded" RATE_REPLY⟩ ∧
    expressCatch ⟨some 401, none, none⟩ = ⟨500, mkErr2 "Authentication error" AUTH_REPLY⟩ ∧
    expressCatch ⟨none, some "ECONNABORTED", none⟩ =
      ⟨504, mkErr2 "Request timeout" TIMEOUT_REPLY⟩ ∧
    expressCatch ⟨some 500, none, some "boom"⟩ =
      ⟨500, mkErr2 "Internal server error" TECH_DIFFICULTIES_REPLY⟩ :=
  ⟨(C8_error_classifier _).1 rfl,
   (C8_error_classifier _).2.1 (Or.inl rfl),
   (C8_error_classifier _).2.2.1 rfl rfl,
   (C8_error_classifier _).2.2.2.1 (by decide) (by decide) (by decide) (by decide) (by decide)⟩

/-- Every 200 response of the Express handler is a NormalizedReply built
from the post-processed reply text, which is never blank. -/
theorem expressGenerate_200_shape (key : Option String) (prov : JsValue → ProviderResult)
    (b : Option JsValue) (h : (expressGenerate key prov b).1.status = 200) :
    ∃ t, (expressGenerate key prov b).1 = ⟨200, mkNormalizedReply t⟩ ∧ jsTrim t ≠ "" := by
  rcases expressGenerate_cases key prov b with
    ⟨er, rp, n, hn, he⟩ | ⟨n, hn, he⟩ | ⟨e, n, hn, he⟩ | ⟨data, he⟩
  · rw [he] at h; simp at h
  · rw [he] at h; simp at h
  · rw [he] at h; exact absurd h (expressCatch_status_ne_200 e)
  · rw [he] at h ⊢
    rcases expressRespond_cases data with hr | hr | ⟨t0, hr⟩
    · rw [hr] at h; simp at h
    · rw [hr] at h; exact absurd h (expressCatch_status_ne_200 _)
    · rw [hr]
      exact ⟨expressPostProcess t0, rfl, expressPostProcess_trim_ne t0⟩

/-- Every 200 response of the Netlify handler has the `{ reply, content }`
shape. -/
theorem chatbotHandler_200_shape (sdk : Bool) (key : Option String)
    (parse : String → Option JsValue) (prov : JsValue → ProviderResult) (ev : NetlifyEvent)
    (h : (chatbotHandler sdk key parse prov ev).1.status = 200) :
    ∃ t c, (chatbotHandler sdk key parse prov ev).1 = ⟨200, netlify200Body t c⟩ := by
  rcases chatbotHandler_cases sdk key parse prov ev with
    he | ⟨s, he, _⟩ | ⟨er, rp, he⟩ | ⟨e, n, hn, he⟩ | ⟨resp, he⟩
  · rw [he] at h; simp at h
  · rw [he] at h; simp at h
  · rw [he] at h; simp at h
  · rw [he] at h; simp [netlifyCatch] at h
  · rw [he] at h ⊢
    rcases netlifyRespond_cases resp with hr | hr | ⟨t, c, hr⟩
    · rw [hr] at h; simp at h
    · rw [hr] at h; simp [netlifyCatch] at h
    · rw [hr]; exact ⟨t, c, rfl⟩

/-- C6 counterexample: a successful Netlify response has no top-level
`candidates` field at all — its body is `{ reply, content }` — so the
claimed NormalizedReply shape and round-trip equation fail there. -/
theorem C6_counterexample :
    (chatbotHandler true (some "key") (constParse (some validReqBody))
        (constProvider (.ok (mkProviderResponse "Basil is a lovely thing to grow.")))
        ⟨"POST", some "x"⟩).1.status = 200 ∧
    ((chatbotHandler true (some "key") (constParse (some validReqBody))
        (constProvider (.ok (mkProviderResponse "Basil is a lovely thing to grow.")))
        ⟨"POST", some "x"⟩).1.body).get "candidates" = none :=
  ⟨rfl, rfl⟩

/-- C6 (amended): every 200 response of the Express handler has the
NormalizedReply shape and satisfies the round-trip equation — its
`candidates[0].content.parts[0].text` equals its `reply` exactly; the
Netlify handler's 200 responses do NOT have this shape: they carry
`{ reply, content }` with no top-level `candidates` field. -/
theorem C6_amended_roundtrip :
    (∀ (key : Option String) (prov : JsValue → ProviderResult) (b : Option JsValue),
       (expressGenerate key prov b).1.status = 200 →
       ∃ t, (expressGenerate key prov b).1.body = mkNormalizedReply t ∧
         ((expressGenerate key prov b).1.body).get "reply" = some (.str t) ∧
         normalizedText ((expressGenerate key prov b).1.body) = some (.str t)) ∧
    (∀ (sdk : Bool) (key : Option String) (parse : String → Option JsValue)
       (prov : JsValue → ProviderResult) (ev : NetlifyEvent),
       (chatbotHandler sdk key parse prov ev).1.status = 200 →
       ((chatbotHandler sdk key parse prov ev).1.body).get "candidates" = none) := by
  constructor
  · intro key prov b h
    obtain ⟨t, ht, _⟩ := expressGenerate_200_shape key prov b h
    refine ⟨t, ?_, ?_, ?_⟩ <;> (rw [ht]; try rfl)
  · intro sdk key parse prov ev h
    obtain ⟨t, c, ht⟩ := chatbotHandler_200_shape sdk key parse prov ev h
    rw [ht]
    rfl

/-- C6 witness: concrete successful runs of both handlers. -/
theorem C6_witness :
    (∃ t, (expressGenerate (some "key")
         (constProvider (.ok (mkProviderResponse "Neem oil deters pests.")))
         (some validReqBody)).1.body = mkNormalizedReply t ∧
       ((expressGenerate (some "key")
         (constProvider (.ok (mkProviderResponse "Neem oil deters pests.")))
         (some validReqBody)).1.body).get "reply" = some (.str t) ∧
       normalizedText ((expressGenerate (some "key")
         (constProvider (.ok (mkProviderResponse "Neem oil deters pests.")))
         (some validReqBody)).1.body) = some (.str t)) ∧
    ((chatbotHandler true (some "key") (constParse (some validReqBody))
        (constProvider (.ok (mkProviderResponse "Basil grows well in pots.")))
        ⟨"POST", some "x"⟩).1.body).get "candidates" = none :=
  ⟨C6_amended_roundtrip.1 _ _ _ rfl, C6_amended_roundtrip.2 _ _ _ _ _ rfl⟩

/-- C7 counterexample: the Netlify handler has no blank-reply check: a valid
provider response with an empty parts array yields a 200 response whose
`reply` is the empty string, not the rephrase fallback. -/
theorem C7_counterexample :
    (chatbotHandler true (some "key") (constParse (some validReqBody))
        (constProvider (.ok (.obj [("candidates",
          .arr [.obj [("content", .obj [("parts", .arr [])])]])])))
        ⟨"POST", some "x"⟩).1.status = 200 ∧
    ((chatbotHandler true (some "key") (constParse (some validReqBody))
        (constProvider (.ok (.obj [("candidates",
          .arr [.obj [("content", .obj [("parts", .arr [])])]])])))
        ⟨"POST", some "x"⟩).1.body).get "reply" = some (.str "") :=
  ⟨rfl, rfl⟩

/-- C7 (amended): in the Express handler a blank extracted reply that
survives the off-topic check is replaced by the fixed rephrase message,
which differs from the refusal message, so no Express 200 response carries a
blank reply; the Netlify handler has no such check and can answer 200 with
an empty reply. -/
theorem C7_amended_blank_fallback :
    (∀ t, expressSeemsOffTopic t = false → jsTrim t = "" →
       expressPostProcess t = REPHRASE_MESSAGE) ∧
    REPHRASE_MESSAGE ≠ REFUSAL_MESSAGE ∧
    (∀ (key : Option String) (prov : JsValue → ProviderResult) (b : Option JsValue),
       (expressGenerate key prov b).1.status = 200 →
       ∃ t, ((expressGenerate key prov b).1.body).get "reply" = some (.str t) ∧
         jsTrim t ≠ "") := by
  refine ⟨fun t h1 h2 => ?_, by decide, fun key prov b h => ?_⟩
  · unfold expressPostProcess
    dsimp only
    rw [h1]
    rw [if_neg Bool.false_ne_true, if_pos (Or.inr h2)]
  · obtain ⟨t, ht, htr⟩ := expressGenerate_200_shape key prov b h
    exact ⟨t, by rw [ht]; rfl, htr⟩

/-- C7 witness: a blank reply is rephrased, and a concrete 200 response
carries a non-blank reply. -/
theorem C7_witness :
    expressPostProcess "   " = REPHRASE_MESSAGE ∧
    (∃ t, ((expressGenerate (some "key")
        (constProvider (.ok (mkProviderResponse "Mint spreads fast in pots.")))
        (some validReqBody)).1.body).get "reply" = some (.str t) ∧ jsTrim t ≠ "") :=
  ⟨C7_amended_blank_fallback.1 "   " (by decide) (by decide),
   C7_amended_blank_fallback.2.2 _ _ _ rfl⟩

/-- C9 counterexample: the Netlify missing-SDK configuration failure returns
a 500 JSON body that has an `error` field but NO `reply` field. -/
theorem C9_counterexample :
    (chatbotHandler false none (constParse none) (constProvider (.ok .null))
        ⟨"POST", some "zzz"⟩).1.status = 500 ∧
    ((chatbotHandler false none (constParse none) (constProvider (.ok .null))
        ⟨"POST", some "zzz"⟩).1.body).get "error" =
      some (.str "Server misconfiguration: missing SDK.") ∧
    ((chatbotHandler false none (constParse none) (constProvider (.ok .null))
        ⟨"POST", some "zzz"⟩).1.body).get "reply" = none :=
  ⟨rfl, rfl, rfl⟩

/-- C9 (amended): both handlers are total — every failure is caught and
returned as a JSON response.  Every Express failure response carries both a
human-readable `error` and a `reply`; the Netlify handler does too on its
validation and upstream failure paths, but its configuration-error paths
(missing SDK, missing API key) return only `error` with no `reply`. -/
theorem C9_amended_reply_field :
    (∀ (key : Option String) (prov : JsValue → ProviderResult) (b : Option JsValue),
       (expressGenerate key prov b).1.status ≠ 200 →
       errAndReply (expressGenerate key prov b).1.body) ∧
    (∀ (k : String) (parse : String → Option JsValue) (prov : JsValue → ProviderResult)
       (ev : NetlifyEvent), k ≠ "" →
       (chatbotHandler true (some k) parse prov ev).1.status ≠ 200 →
       (chatbotHandler true (some k) parse prov ev).1.status ≠ 204 →
       errAndReply (chatbotHandler true (some k) parse prov ev).1.body) := by
  constructor
  · intro key prov b h
    rcases expressGenerate_cases key prov b with
      ⟨er, rp, n, hn, he⟩ | ⟨n, hn, he⟩ | ⟨e, n, hn, he⟩ | ⟨data, he⟩
    · rw [he]; exact mkErr2_errAndReply er rp
    · rw [he]; exact mkErr2_errAndReply _ _
    · rw [he]; exact expressCatch_errAndReply e
    · rw [he] at h ⊢
      rcases expressRespond_cases data with hr | hr | ⟨t0, hr⟩
      · rw [hr]; exact mkErr2_errAndReply _ _
      · rw [hr]; exact expressCatch_errAndReply _
      · rw [hr] at h; simp at h
  · intro k parse prov ev hk h h204
    rcases chatbotHandler_cases true (some k) parse prov ev with
      he | ⟨s, he, hcfg⟩ | ⟨er, rp, he⟩ | ⟨e, n, hn, he⟩ | ⟨resp, he⟩
    · rw [he] at h204; simp at h204
    · rcases hcfg with hc | hc | hc
      · exact absurd hc (by decide)
      · exact absurd hc (by simp)
      · exact absurd hc (by simp [hk])
    · rw [he]; exact mkErr2_errAndReply er rp
    · rw [he]; exact netlifyCatch_errAndReply e
    · rw [he] at h ⊢
      rcases netlifyRespond_cases resp with hr | hr | ⟨t, c, hr⟩
      · rw [hr]; exact mkErr2_errAndReply _ _
      · rw [hr]; exact netlifyCatch_errAndReply _
      · rw [hr] at h; simp at h

/-- C9 witness: concrete failure responses of both handlers carrying both
fields. -/
theorem C9_witness :
    errAndReply (expressGenerate none (constProvider (.ok .null)) none).1.body ∧
    errAndReply (chatbotHandler true (some "key") (constParse none)
        (constProvider (.ok .null)) ⟨"POST", some "zzz"⟩).1.body :=
  ⟨C9_amended_reply_field.1 _ _ _ (by decide),
   C9_amended_reply_field.2 _ _ _ _ (by decide) (by decide) (by decide)⟩

/-- C10: an unparseable request body does not crash the Netlify handler: the
caught parse failure leaves the empty-object body, which fails the domain
gate, so — with the SDK and an API key configured, on a non-preflight
request — the handler returns the 400 domain response and never calls the
provider. -/
theorem C10_parse_fallback (k s m : String) (parse : String → Option JsValue)
    (prov : JsValue → ProviderResult) (hk : k ≠ "") (hm : m ≠ "OPTIONS")
    (hp : parse s = none) :
    chatbotHandler true (some k) parse prov ⟨m, some s⟩ =
      (⟨400, mkErr2 "Invalid request: domain parameter required" DOMAIN_REPLY⟩, 0) := by
  by_cases hs : s = ""
  · subst hs
    simp only [chatbotHandler]
    rw [if_neg hm]
    simp [hk]
    exact fun hcontra => absurd hcontra (by decide)
  · simp only [chatbotHandler]
    rw [if_neg hm]
    simp [hk, hs, hp]
    exact fun hcontra => absurd hcontra (by decide)

/-- C10 witness: a concrete unparseable body yields the 400 domain response. -/
theorem C10_witness :
    chatbotHandler true (some "key") (constParse none) (constProvider (.ok .null))
        ⟨"POST", some "this is not json"⟩ =
      (⟨400, mkErr2 "Invalid request: domain parameter required" DOMAIN_REPLY⟩, 0) :=
  C10_parse_fallback "key" "this is not json" "POST" (constParse none)
    (constProvider (.ok .null)) (by decide) (by decide) rfl

end HerbalGarden
